import Mathlib

/-
Verification of the acled-conflict-api conflict routes against their
natural-language specification.

The embedding models the storage state (SQLite/PostgreSQL tables declared in
src/app/models.py) as lists of rows, and each Flask route handler in
src/app/routes/conflict.py as a pure function from a request and a storage
state to an outcome and a new storage state.  Stored floating-point scores
are modelled as rationals; timestamps as naturals.
-/

namespace Acled

/-- Row of the conflict_data table (models.py ConflictData).  Column defaults
populate created_at and updated_at, so they are modelled as always present. -/
structure ConflictRow where
  id : Nat
  country : String
  admin1 : String
  population : Option Int
  events : Int
  score : ℚ
  created_at : Nat
  updated_at : Nat
deriving Repr, DecidableEq

/-- Row of the risk_cache table (models.py RiskCache).  The admin1 column is
declared nullable=False, so every row actually present in the table carries a
string admin1; computed_at has a column default. -/
structure RiskCacheRow where
  id : Nat
  country : String
  admin1 : String
  avg_score : ℚ
  computed_at : Nat
deriving Repr, DecidableEq

/-- The Python-side RiskCache object as constructed in get_country_riskscore
(routes/conflict.py lines 167-171): the admin1 attribute is never assigned
there, so it is modelled as an Option that the route leaves at none. -/
structure PendingRiskCache where
  country : String
  admin1 : Option String
  avg_score : ℚ
  computed_at : Nat
deriving Repr, DecidableEq

/-- Row of the feedback table (models.py Feedback). -/
structure FeedbackRow where
  id : Nat
  user_id : Nat
  conflict_id : Option Nat
  country : String
  admin1 : String
  text : String
  created_at : Nat
deriving Repr, DecidableEq

/-- The storage state: one list per table touched by the conflict routes. -/
structure DBState where
  conflict_data : List ConflictRow
  risk_cache : List RiskCacheRow
  feedback : List FeedbackRow
deriving Repr, DecidableEq

/-- Database errors raised by the storage layer on commit, as constrained by
the DDL in models.py. -/
inductive DBError where
  | notNullViolation (col : String)
  | uniqueViolation (name : String)
deriving Repr, DecidableEq

/-- SELECT count(id) FROM conflict_data WHERE country = c
(routes/conflict.py lines 139-141). -/
def countryCount (st : DBState) (c : String) : Nat :=
  (st.conflict_data.filter (fun r => r.country == c)).length

/-- RiskCache.query.filter_by(country=c).first()
(routes/conflict.py line 147). -/
def cacheLookup (st : DBState) (c : String) : Option RiskCacheRow :=
  (st.risk_cache.filter (fun r => r.country == c)).head?

/-- The severity scores of all conflict rows for a country
(the operand of func.avg in routes/conflict.py lines 156-158). -/
def scoresFor (st : DBState) (c : String) : List ℚ :=
  (st.conflict_data.filter (fun r => r.country == c)).map (fun r => r.score)

/-- SQL AVG: NULL (none) on the empty set, otherwise sum divided by count. -/
def sqlAvg (xs : List ℚ) : Option ℚ :=
  if xs.isEmpty then none else some (xs.sum / (xs.length : ℚ))

/-- Fresh primary key for an insert. -/
def freshId (ids : List Nat) : Nat :=
  ids.foldr (fun a b => max a b) 0 + 1

/-- Commit of a new risk_cache row.  The DDL (models.py lines 50-59) declares
admin1 NOT NULL and the composite unique constraint ux_risk_country_admin1 on
(country, admin1); an insert violating either fails with an IntegrityError,
modelled here as a DBError.  On success the inserted row and the new state
are returned. -/
def insertRiskCache (st : DBState) (p : PendingRiskCache) :
    Except DBError (RiskCacheRow × DBState) :=
  match p.admin1 with
  | none => .error (.notNullViolation "risk_cache.admin1")
  | some a1 =>
      if st.risk_cache.any (fun r => r.country == p.country && r.admin1 == a1) then
        .error (.uniqueViolation "ux_risk_country_admin1")
      else
        let row : RiskCacheRow :=
          ⟨freshId (st.risk_cache.map (fun r => r.id)), p.country, a1,
            p.avg_score, p.computed_at⟩
        .ok (row, { st with risk_cache := st.risk_cache ++ [row] })

/-- Outcome of GET /conflictdata/country/riskscore: ok carries the fields of
the serialized RiskScoreResponse (200), notFound is the 404 branch, and
serverError the generic 500 branch whose message embeds the exception. -/
inductive RiskScoreOutcome where
  | ok (country admin1 : String) (avg_score : ℚ) (computed_at : Nat)
  | notFound (msg : String)
  | serverError (e : DBError)
deriving Repr, DecidableEq

/-- Whether a riskscore outcome is the 200 branch. -/
def RiskScoreOutcome.isOk : RiskScoreOutcome → Bool
  | .ok _ _ _ _ => true
  | _ => false

/-- Handler of GET /conflictdata/country/riskscore
(routes/conflict.py get_country_riskscore, lines 122-182), with the storage
state split into two snapshots to model the race of a concurrent writer:
st is the state observed by the existence check, the cache lookup and the
AVG query; stc is the state the insert of the new cache row commits against.
The sequential (race-free) execution is the diagonal st = stc.
Branches: count = 0 raises NotFound (404); a cache hit serializes the row
(RiskScoreResponse requires a string admin1, which every stored row has);
on a miss the computed average is stored via a RiskCache object whose admin1
attribute is never set, and any commit failure is caught by the generic
except Exception handler as a 500. -/
def get_country_riskscore_race (st stc : DBState) (country : String) (now : Nat) :
    RiskScoreOutcome × DBState :=
  if countryCount st country == 0 then
    (.notFound ("No conflict data found for country: " ++ country), st)
  else
    match cacheLookup st country with
    | some rc => (.ok rc.country rc.admin1 rc.avg_score rc.computed_at, st)
    | none =>
        let avg : ℚ :=
          match sqlAvg (scoresFor st country) with
          | none => 0
          | some a => a
        let p : PendingRiskCache := ⟨country, none, avg, now⟩
        match insertRiskCache stc p with
        | .error e => (.serverError e, stc)
        | .ok (row, st2) =>
            (.ok row.country row.admin1 row.avg_score row.computed_at, st2)

/-- Sequential execution of the riskscore handler: the race model on the
diagonal, both snapshots being the same state. -/
def get_country_riskscore (st : DBState) (country : String) (now : Nat) :
    RiskScoreOutcome × DBState :=
  get_country_riskscore_race st st country now

/-- Body of the DELETE /conflictdata request (schemas.py DeleteRequest:
both fields with min_length 1). -/
structure DeleteReq where
  country : String
  admin1 : String
deriving Repr, DecidableEq

/-- Outcome of DELETE /conflictdata. -/
inductive DeleteOutcome where
  | ok (deleted : Nat)
  | badRequest (msg : String)
  | notFound (msg : String)
deriving Repr, DecidableEq

/-- Handler of DELETE /conflictdata (routes/conflict.py delete_conflict_data,
lines 244-293), past the jwt/admin guards (Identity/Access is an external
collaborator).  The deletion is the bulk Query.delete() on
(country, admin1): it removes matching conflict_data rows only - it does not
run the ORM cascade on ConflictData.feedback, and (under the SQLite
configuration the tests run with, foreign keys unenforced) leaves feedback
rows in place.  Zero matches raise NotFound before the commit. -/
def delete_conflict_data (st : DBState) (req : DeleteReq) :
    DeleteOutcome × DBState :=
  if req.country.length < 1 ∨ req.admin1.length < 1 then
    (.badRequest "Invalid request", st)
  else
    let remaining := st.conflict_data.filter
      (fun r => !(r.country == req.country && r.admin1 == req.admin1))
    let deleted := st.conflict_data.length - remaining.length
    if deleted == 0 then
      (.notFound ("No records found for " ++ req.country ++ "/" ++ req.admin1), st)
    else
      (.ok deleted, { st with conflict_data := remaining })

/-- Uniqueness constraint ux_risk_country_admin1 of the risk_cache table
(models.py line 59): the (country, admin1) pairs of the stored rows are
pairwise distinct. -/
def RiskCacheConstraintHolds (st : DBState) : Prop :=
  (st.risk_cache.map (fun r => (r.country, r.admin1))).Nodup

instance (st : DBState) : Decidable (RiskCacheConstraintHolds st) :=
  List.nodupDecidable _

/-- Serialized ConflictDataRow (schemas.py lines 52-64): the score field is
typed int. -/
structure ConflictDataRowOut where
  id : Nat
  country : String
  admin1 : String
  population : Option Int
  events : Int
  score : Int
  created_at : Nat
  updated_at : Nat
deriving Repr, DecidableEq

/-- Pydantic lax coercion of the stored float score into the int-typed score
field of ConflictDataRow: floats with a zero fractional part are coerced to
the integer, any nonzero fractional part raises a ValidationError. -/
def coerceScoreInt (q : ℚ) : Option Int :=
  if q.den = 1 then some q.num else none

/-- ConflictDataRow.model_validate on one ORM row: fails exactly when the
stored score is not integral. -/
def serializeRow (r : ConflictRow) : Option ConflictDataRowOut :=
  (coerceScoreInt r.score).map
    (fun s => ⟨r.id, r.country, r.admin1, r.population, r.events, s,
      r.created_at, r.updated_at⟩)

/-- Serialization of a list of rows, stopping at the first failure, as the
list comprehensions in the routes do. -/
def serializeRows : List ConflictRow → Option (List ConflictDataRowOut)
  | [] => some []
  | r :: rs =>
      (serializeRow r).bind (fun o => (serializeRows rs).map (fun os => o :: os))

/-- Ordering key of ORDER BY country, admin1. -/
def keyLE (a b : ConflictRow) : Bool :=
  match compare a.country b.country with
  | .lt => true
  | .gt => false
  | .eq =>
      match compare a.admin1 b.admin1 with
      | .gt => false
      | _ => true

/-- Insertion into a list sorted by keyLE. -/
def insertSorted (r : ConflictRow) : List ConflictRow → List ConflictRow
  | [] => [r]
  | x :: xs => if keyLE r x then r :: x :: xs else x :: insertSorted r xs

/-- ORDER BY country, admin1 as a stable insertion sort. -/
def orderByCountryAdmin1 (l : List ConflictRow) : List ConflictRow :=
  l.foldr insertSorted []

/-- The rows of the requested page: paginate(page, per_page, error_out=False)
slices the ordered table. -/
def pageItems (st : DBState) (page per_page : Int) : List ConflictRow :=
  (((orderByCountryAdmin1 st.conflict_data).drop
      ((page - 1) * per_page).toNat).take per_page.toNat)

/-- Outcome of GET /conflictdata: ok carries the ConflictDataListResponse
fields (200); badRequest is the except ValueError branch (400), which also
catches pydantic ValidationError since that class subclasses ValueError;
serverError is the generic 500 branch. -/
inductive ConflictListOutcome where
  | ok (page per_page : Int) (total : Nat) (data : List ConflictDataRowOut)
  | badRequest (msg : String)
  | serverError
deriving Repr, DecidableEq

/-- Whether a list outcome is the 200 branch. -/
def ConflictListOutcome.isOk : ConflictListOutcome → Bool
  | .ok _ _ _ _ => true
  | _ => false

/-- Handler of GET /conflictdata (routes/conflict.py get_all_conflicts,
lines 19-61): validate pagination parameters (ValueError, 400), slice the
table ordered by country and admin1, serialize each row of the page through
ConflictDataRow (a ValidationError on a non-integral score is caught by the
except ValueError clause, 400), and build the paginated response. -/
def get_all_conflicts (st : DBState) (page per_page : Int) : ConflictListOutcome :=
  if page < 1 ∨ per_page < 1 ∨ per_page > 100 then
    .badRequest "Invalid pagination parameters provided from URL"
  else
    match serializeRows (pageItems st page per_page) with
    | none => .badRequest "validation error"
    | some rows =>
        .ok page per_page (orderByCountryAdmin1 st.conflict_data).length rows

/-- Whitespace characters removed by Python str.strip(). -/
def isStrippedSpace (c : Char) : Bool :=
  c == ' ' || c == '\t' || c == '\n' || c == '\r'

/-- Python str.strip(): remove leading and trailing whitespace. -/
def stripStr (s : String) : String :=
  String.mk (((s.toList.dropWhile isStrippedSpace).reverse.dropWhile
    isStrippedSpace).reverse)

/-- Splitting a character list at commas, accumulating the current piece in
reverse. -/
def splitCommaAux : List Char → List Char → List String
  | [], acc => [String.mk acc.reverse]
  | c :: cs, acc =>
      if c == ',' then String.mk acc.reverse :: splitCommaAux cs []
      else splitCommaAux cs (c :: acc)

/-- Python str.split for the comma separator: always at least one piece. -/
def splitComma (s : String) : List String :=
  splitCommaAux s.toList []

/-- The country names of the URL parameter: split on commas, each piece
stripped of surrounding whitespace (routes/conflict.py line 79). -/
def parseCountries (param : String) : List String :=
  (splitComma param).map (fun c => stripStr c)

/-- The conflict rows matching the requested countries, ordered by country
and admin1 (routes/conflict.py lines 84-88). -/
def matchedRows (st : DBState) (param : String) : List ConflictRow :=
  orderByCountryAdmin1
    (st.conflict_data.filter (fun r => (parseCountries param).contains r.country))

/-- Outcome of GET /conflictdata/country: okSingle is the 200 branch for a
single requested country, okMulti the 200 branch for a comma-separated list;
badRequest covers the except ValueError branch (400, including pydantic
ValidationError), notFound the 404 branch. -/
inductive CountryDataOutcome where
  | okSingle (country : String) (entries : List ConflictDataRowOut)
  | okMulti (data : List (String × List ConflictDataRowOut))
  | badRequest (msg : String)
  | notFound (msg : String)
deriving Repr, DecidableEq

/-- Whether a country-data outcome is a 200 branch. -/
def CountryDataOutcome.isOk : CountryDataOutcome → Bool
  | .okSingle _ _ => true
  | .okMulti _ => true
  | _ => false

/-- Handler of GET /conflictdata/country (routes/conflict.py
get_country_conflicts, lines 63-120): split the parameter into country
names, fetch and order the matching rows, 404 when none match, serialize
every matched row through ConflictDataRow (failure lands in the except
ValueError branch, 400), group by country, and answer with a single object
for one requested name or a list otherwise. -/
def get_country_conflicts (st : DBState) (param : String) : CountryDataOutcome :=
  let countries := parseCountries param
  let rows := matchedRows st param
  if rows.isEmpty then
    .notFound "No conflict data found for provided countries"
  else
    match serializeRows rows with
    | none => .badRequest "validation error"
    | some outs =>
        match countries with
        | [c] => .okSingle c (outs.filter (fun o => o.country == c))
        | _ => .okMulti (countries.map
            (fun c => (c, outs.filter (fun o => o.country == c))))

/-- ConflictData.query.filter_by(admin1=a1).first()
(routes/conflict.py line 211). -/
def conflictByAdmin1 (st : DBState) (a1 : String) : Option ConflictRow :=
  (st.conflict_data.filter (fun r => r.admin1 == a1)).head?

/-- Outcome of POST /conflictdata/admin1/userfeedback: created carries the
FeedbackResponse fields (201); badRequest is the BadRequest branch (400),
notFound the 404 branch. -/
inductive FeedbackOutcome where
  | created (id user_id : Nat) (country admin1 text : String) (created_at : Nat)
  | badRequest (msg : String)
  | notFound (msg : String)
deriving Repr, DecidableEq

/-- Whether a feedback outcome is the 201 branch. -/
def FeedbackOutcome.isCreated : FeedbackOutcome → Bool
  | .created _ _ _ _ _ _ => true
  | _ => false

/-- Handler of POST /conflictdata/admin1/userfeedback (routes/conflict.py
post_user_feedback, lines 184-241), past the jwt guard; uid is the integer
identity from the token.  The body is validated first through
FeedbackCreateRequest (schemas.py line 94: text min_length 20,
max_length 600; failure raises BadRequest, 400, before any lookup or write);
then the admin1 region is looked up (404 when absent); then the feedback row
is inserted and the FeedbackResponse returned. -/
def post_user_feedback (st : DBState) (a1 : String) (uid : Nat)
    (text : String) (now : Nat) : FeedbackOutcome × DBState :=
  if text.length < 20 ∨ 600 < text.length then
    (.badRequest "Invalid request: text length out of bounds", st)
  else
    match conflictByAdmin1 st a1 with
    | none => (.notFound ("Admin1 region not found: " ++ a1), st)
    | some cr =>
        let fid := freshId (st.feedback.map (fun r => r.id))
        let row : FeedbackRow := ⟨fid, uid, some cr.id, cr.country, a1, text, now⟩
        (.created fid uid cr.country a1 text now,
          { st with feedback := st.feedback ++ [row] })

/-- The Nairobi fixture row. -/
def nairobiRow : ConflictRow := ⟨1, "Kenya", "Nairobi", some 5000000, 45, 7, 0, 0⟩

/-- Sample state used by the concrete theorems: the Kenya rows of the
repository's own fixtures (scores 7, 4, 3), with an empty cache. -/
def kenyaState : DBState :=
  ⟨[nairobiRow,
    ⟨2, "Kenya", "Mombasa", some 1200000, 12, 4, 0, 0⟩,
    ⟨3, "Kenya", "Kisumu", some 800000, 8, 3, 0, 0⟩], [], []⟩

/-- Empty storage state. -/
def emptyState : DBState := ⟨[], [], []⟩

/-- The value seven halves, built by the constructor so that concrete proofs
can evaluate its numerator and denominator. -/
def sevenHalves : ℚ := ⟨7, 2, by decide, by decide⟩

/-- State with a single conflict row whose stored score has a nonzero
fractional part. -/
def fracState : DBState :=
  ⟨[⟨1, "Benin", "Atacora", none, 3, sevenHalves, 0, 0⟩], [], []⟩

/-- Two-row state whose second row, in (country, admin1) order, carries a
fractional score; page 1 of size 1 contains only the first row. -/
def pagedState : DBState :=
  ⟨[⟨1, "Albania", "Berat", none, 2, 3, 0, 0⟩,
    ⟨2, "Benin", "Atacora", none, 3, sevenHalves, 0, 0⟩], [], []⟩

/-- Cache state holding two rows for the same country under different admin1
values: it satisfies the declared composite unique constraint. -/
def twoCacheState : DBState :=
  ⟨[], [⟨1, "Kenya", "Nairobi", 3, 0⟩, ⟨2, "Kenya", "Mombasa", 4, 0⟩], []⟩

/-- State with one conflict row and one feedback row owned by it. -/
def sudanState : DBState :=
  ⟨[⟨1, "Sudan", "Khartoum", none, 15, 6, 0, 0⟩], [],
    [⟨1, 1, some 1, "Sudan", "Khartoum", "Feedback", 0⟩]⟩

/-- State with a stale cache row for a country that has no conflict rows. -/
def staleState : DBState :=
  ⟨[], [⟨1, "Atlantis", "Central", 4, 0⟩], []⟩

/-- The cache row a concurrent writer is imagined to have committed for
Kenya while the first caller was computing. -/
def kenyaCacheRow : RiskCacheRow := ⟨1, "Kenya", "Nairobi", 4, 7⟩

/-- Commit-time state of the C1 race: the Kenya rows plus the concurrently
inserted cache row. -/
def kenyaRaceState : DBState :=
  ⟨kenyaState.conflict_data, [kenyaCacheRow], []⟩

/-- Lemma: ConflictDataRow.model_validate on one row fails exactly when the
stored score is not integral. -/
theorem serializeRow_eq_none_iff (r : ConflictRow) :
    serializeRow r = none ↔ r.score.den ≠ 1 := by
  by_cases h : r.score.den = 1 <;> simp [serializeRow, coerceScoreInt, h]

/-- Lemma: serializing a list of rows fails exactly when some row's stored
score is not integral. -/
theorem serializeRows_eq_none_iff (l : List ConflictRow) :
    serializeRows l = none ↔ ∃ r ∈ l, r.score.den ≠ 1 := by
  induction l with
  | nil => simp [serializeRows]
  | cons r rs ih =>
      cases hsr : serializeRow r with
      | none =>
          have h := (serializeRow_eq_none_iff r).mp hsr
          simp only [serializeRows, hsr, Option.bind]
          exact iff_of_true trivial ⟨r, List.mem_cons_self r rs, h⟩
      | some o =>
          have hden : r.score.den = 1 := by
            by_contra hc
            rw [(serializeRow_eq_none_iff r).mpr hc] at hsr
            cases hsr
          cases hrs : serializeRows rs with
          | none =>
              obtain ⟨x, hx, hdx⟩ := ih.mp hrs
              simp only [serializeRows, hsr, hrs, Option.bind, Option.map]
              exact iff_of_true trivial ⟨x, List.mem_cons_of_mem r hx, hdx⟩
          | some os =>
              simp only [serializeRows, hsr, hrs, Option.bind, Option.map]
              constructor
              · intro hcontra; cases hcontra
              · rintro ⟨x, hx, hdx⟩
                rcases List.mem_cons.mp hx with hxr | hxrs
                · exact absurd hden (by rw [← hxr] at *; exact fun hh => hdx hh)
                · have : serializeRows rs = none := ih.mpr ⟨x, hxrs, hdx⟩
                  rw [this] at hrs
                  cases hrs

/-- Claim C1, counterexample.  A concurrent writer has committed the cache
row kenyaCacheRow for Kenya between the first caller's cache lookup (state
kenyaState, no cache row) and its insert (state kenyaRaceState): the claim
says the caller catches the conflict, re-reads that row and returns it, and
that no error is surfaced; in fact the handler surfaces a 500 server error
(the insert dies on the never-assigned NOT NULL admin1 column before any
uniqueness check) and does not return the now-present row. -/
theorem c1_counterexample :
    cacheLookup kenyaRaceState "Kenya" = some kenyaCacheRow
  ∧ (get_country_riskscore_race kenyaState kenyaRaceState "Kenya" 9).1
      = .serverError (.notNullViolation "risk_cache.admin1")
  ∧ ((get_country_riskscore_race kenyaState kenyaRaceState "Kenya" 9).1.isOk
      = false) := by
  refine ⟨by decide, by decide, by decide⟩

/-- Claim C1, amended: during get_or_compute, when the cache misses and the
insert of the new RiskAggregate row fails at commit time - in particular in
the race in which another caller's row for the country is already present -
the handler has no conflict-specific handling: the failure reaches the
generic exception handler and is surfaced to the caller as a 500 server
error, the now-present cache row is not re-read, and the storage state is
left as the concurrent writer committed it.  (In this code the insert always
fails with the NOT NULL violation on risk_cache.admin1, which the handler
never assigns, before the composite uniqueness constraint is ever
checked.) -/
theorem c1_conflict_surfaced (st stc : DBState) (country : String) (now : Nat)
    (h1 : countryCount st country ≠ 0) (h2 : cacheLookup st country = none) :
    (get_country_riskscore_race st stc country now).1
        = .serverError (.notNullViolation "risk_cache.admin1")
  ∧ (get_country_riskscore_race st stc country now).2 = stc := by
  have hb : (countryCount st country == 0) = false := by
    simpa using h1
  constructor <;> simp [get_country_riskscore_race, hb, h2, insertRiskCache]

/-- Claim C1, witness for the amended theorem at the concrete race input. -/
theorem c1_conflict_surfaced_witness :
    (countryCount kenyaState "Kenya" ≠ 0 ∧ cacheLookup kenyaState "Kenya" = none)
  ∧ ((get_country_riskscore_race kenyaState kenyaRaceState "Kenya" 9).1
        = .serverError (.notNullViolation "risk_cache.admin1")
      ∧ (get_country_riskscore_race kenyaState kenyaRaceState "Kenya" 9).2
        = kenyaRaceState) :=
  ⟨⟨by decide, by decide⟩,
    c1_conflict_surfaced kenyaState kenyaRaceState "Kenya" 9 (by decide) (by decide)⟩

/-- Claim C2 (code bug): on the repository's own Kenya fixture (three rows,
empty cache) the first riskscore call does not succeed: the cache insert
leaves the NOT NULL column risk_cache.admin1 unset, the commit raises an
IntegrityError, and the generic handler returns a 500 server error - against
the route's documented 200 contract and the repository's test
test_get_riskscore_cache_hit.  The NotFound half of the claim does hold: a
country with zero rows gets the 404. -/
theorem c2_riskscore_compute_path_fails :
    (get_country_riskscore kenyaState "Kenya" 5).1
        = .serverError (.notNullViolation "risk_cache.admin1")
  ∧ (get_country_riskscore emptyState "Kenya" 5).1
        = .notFound "No conflict data found for country: Kenya" := by
  refine ⟨by decide, by decide⟩

/-- Claim C3 (code bug): on the Kenya fixture the SQL average is computed as
14/3, but the first call returns no avg_score at all: the cache insert fails
on the NOT NULL risk_cache.admin1 column and the call ends in a 500 server
error instead of a 200 carrying the mean. -/
theorem c3_first_call_returns_error_not_mean :
    sqlAvg (scoresFor kenyaState "Kenya") = some ((14 : ℚ) / 3)
  ∧ ((get_country_riskscore kenyaState "Kenya" 5).1.isOk = false)
  ∧ (get_country_riskscore kenyaState "Kenya" 5).1
      = .serverError (.notNullViolation "risk_cache.admin1") := by
  refine ⟨by norm_num [sqlAvg, scoresFor, kenyaState, nairobiRow], by decide, by decide⟩

/-- Claim C4 (code bug): two sequential riskscore calls on the Kenya fixture
both fail with the 500 server error; the first call creates no cache row (the
failed commit is rolled back), so there is never a cache hit and no call
returns computed_at or avg_score values at all. -/
theorem c4_sequential_calls_both_fail :
    (get_country_riskscore kenyaState "Kenya" 5).2 = kenyaState
  ∧ (get_country_riskscore kenyaState "Kenya" 5).1
      = .serverError (.notNullViolation "risk_cache.admin1")
  ∧ (get_country_riskscore
        ((get_country_riskscore kenyaState "Kenya" 5).2) "Kenya" 6).1
      = .serverError (.notNullViolation "risk_cache.admin1")
  ∧ ((get_country_riskscore kenyaState "Kenya" 5).2).risk_cache = [] := by
  refine ⟨by decide, by decide, by decide, by decide⟩

/-- Claim C7 (code bug): deleting the only Sudan/Khartoum conflict record
through the admin delete route removes the conflict row (deleted count 1) but
leaves the feedback row that references it in storage, conflict_id still
pointing at the deleted record: the bulk Query.delete() bypasses the ORM
cascade declared on ConflictData.feedback. -/
theorem c7_bulk_delete_leaves_feedback :
    (delete_conflict_data sudanState ⟨"Sudan", "Khartoum"⟩).1 = .ok 1
  ∧ ((delete_conflict_data sudanState ⟨"Sudan", "Khartoum"⟩).2).conflict_data = []
  ∧ ((delete_conflict_data sudanState ⟨"Sudan", "Khartoum"⟩).2).feedback
      = [⟨1, 1, some 1, "Sudan", "Khartoum", "Feedback", 0⟩] := by
  refine ⟨by decide, by decide, by decide⟩

/-- Claim C8: the existence check against conflict_data runs before the
cache lookup, so a country with zero conflict rows always gets the 404, even
when a stale risk_cache row for it is still present; the state is
untouched. -/
theorem c8_exists_check_precedes_cache (st : DBState) (country : String)
    (now : Nat) (h : countryCount st country = 0) :
    get_country_riskscore st country now
      = (.notFound ("No conflict data found for country: " ++ country), st) := by
  simp [get_country_riskscore, get_country_riskscore_race, h]

/-- Claim C8, witness: the stale Atlantis cache row is not served once all
Atlantis conflict rows are gone. -/
theorem c8_exists_check_precedes_cache_witness :
    countryCount staleState "Atlantis" = 0
  ∧ get_country_riskscore staleState "Atlantis" 9
      = (.notFound ("No conflict data found for country: " ++ "Atlantis"),
          staleState) :=
  ⟨by decide, c8_exists_check_precedes_cache staleState "Atlantis" 9 (by decide)⟩

/-- Claim C5: the admin delete route never touches the risk_cache table, and
once a cache row is the first match for a country, any mutation of
conflict_data alone (adding, editing or deleting rows - stm is any state
whose risk_cache equals st's) leaves a later riskscore call returning exactly
the originally cached avg_score and computed_at, provided the country still
has at least one conflict row. -/
theorem c5_cache_frame (st stm : DBState) (req : DeleteReq) (rc : RiskCacheRow)
    (country : String) (now : Nat)
    (hcache : stm.risk_cache = st.risk_cache)
    (hrc : cacheLookup st country = some rc)
    (hnz : countryCount stm country ≠ 0) :
    ((delete_conflict_data st req).2).risk_cache = st.risk_cache
  ∧ cacheLookup stm country = some rc
  ∧ (get_country_riskscore stm country now).1
      = .ok rc.country rc.admin1 rc.avg_score rc.computed_at := by
  have h1 : ((delete_conflict_data st req).2).risk_cache = st.risk_cache := by
    unfold delete_conflict_data
    split
    · rfl
    · dsimp only
      split <;> rfl
  have h2 : cacheLookup stm country = some rc := by
    unfold cacheLookup at hrc ⊢
    rw [hcache]
    exact hrc
  have hb : (countryCount stm country == 0) = false := by simpa using hnz
  refine ⟨h1, h2, ?_⟩
  simp [get_country_riskscore, get_country_riskscore_race, hb, h2]

/-- Claim C5, witness: on the Kenya state with a cache row, deleting the
Mombasa record leaves the cache row and the riskscore answer unchanged. -/
theorem c5_cache_frame_witness :
    ((delete_conflict_data kenyaRaceState ⟨"Kenya", "Mombasa"⟩).2.risk_cache
        = kenyaRaceState.risk_cache
      ∧ cacheLookup kenyaRaceState "Kenya" = some kenyaCacheRow
      ∧ countryCount (delete_conflict_data kenyaRaceState
          ⟨"Kenya", "Mombasa"⟩).2 "Kenya" ≠ 0)
  ∧ (((delete_conflict_data kenyaRaceState ⟨"Kenya", "Mombasa"⟩).2).risk_cache
        = kenyaRaceState.risk_cache
      ∧ cacheLookup (delete_conflict_data kenyaRaceState
          ⟨"Kenya", "Mombasa"⟩).2 "Kenya" = some kenyaCacheRow
      ∧ (get_country_riskscore (delete_conflict_data kenyaRaceState
            ⟨"Kenya", "Mombasa"⟩).2 "Kenya" 11).1
          = .ok kenyaCacheRow.country kenyaCacheRow.admin1
              kenyaCacheRow.avg_score kenyaCacheRow.computed_at) :=
  ⟨⟨by decide, by decide, by decide⟩,
    c5_cache_frame kenyaRaceState
      (delete_conflict_data kenyaRaceState ⟨"Kenya", "Mombasa"⟩).2
      ⟨"Kenya", "Mombasa"⟩ kenyaCacheRow "Kenya" 11
      (by decide) (by decide) (by decide)⟩

/-- Claim C6, counterexample: a risk_cache table holding two rows for Kenya
under different admin1 values satisfies the declared composite unique
constraint ux_risk_country_admin1, so the storage layer does not enforce at
most one aggregate row per country, and the constraint is not on the country
key alone. -/
theorem c6_counterexample :
    RiskCacheConstraintHolds twoCacheState
  ∧ (twoCacheState.risk_cache.filter (fun r => r.country == "Kenya")).length
      = 2 := by
  refine ⟨by decide, by decide⟩

/-- Lemma: under a nodup key list, at most one row matches a given
(country, admin1) pair. -/
theorem filter_key_length_le_one (l : List RiskCacheRow) (c a : String)
    (h : (l.map (fun r => (r.country, r.admin1))).Nodup) :
    (l.filter (fun r => r.country == c && r.admin1 == a)).length ≤ 1 := by
  induction l with
  | nil => simp
  | cons r t ih =>
      simp only [List.map_cons, List.nodup_cons] at h
      obtain ⟨hnot, ht⟩ := h
      by_cases hr : (r.country == c && r.admin1 == a) = true
      · have hparts := (Bool.and_eq_true _ _).mp hr
        have hc : r.country = c := by simpa using hparts.1
        have ha : r.admin1 = a := by simpa using hparts.2
        have hnil : t.filter (fun x => x.country == c && x.admin1 == a) = [] := by
          rw [List.filter_eq_nil_iff]
          intro x hx hpx
          have hxparts := (Bool.and_eq_true _ _).mp hpx
          have hxc : x.country = c := by simpa using hxparts.1
          have hxa : x.admin1 = a := by simpa using hxparts.2
          exact hnot (List.mem_map.mpr
            ⟨x, hx, by rw [hxc, hxa, hc, ha]⟩)
        simp [List.filter_cons, hr, hnil]
      · simp only [List.filter_cons, hr, if_false, Bool.false_eq_true,
          if_neg, reduceIte]
        exact ih ht

/-- Claim C6, amended: at most one risk_cache row exists per
(country, admin1) pair - not per country - and the storage layer enforces
exactly that: the composite unique constraint ux_risk_country_admin1 bounds
the rows matching any fixed pair by one, and the riskscore insert path only
ever commits states that keep the constraint. -/
theorem c6_pair_uniqueness (st : DBState) (c a : String) (p : PendingRiskCache)
    (h : RiskCacheConstraintHolds st) :
    (st.risk_cache.filter (fun r => r.country == c && r.admin1 == a)).length ≤ 1
  ∧ ∀ row st2, insertRiskCache st p = .ok (row, st2) →
      RiskCacheConstraintHolds st2 := by
  refine ⟨filter_key_length_le_one st.risk_cache c a h, ?_⟩
  intro row st2 hins
  unfold insertRiskCache at hins
  cases hA : p.admin1 with
  | none => rw [hA] at hins; cases hins
  | some a1 =>
      rw [hA] at hins
      dsimp only at hins
      by_cases hany : st.risk_cache.any
          (fun r => r.country == p.country && r.admin1 == a1) = true
      · rw [if_pos hany] at hins; cases hins
      · rw [if_neg hany] at hins
        simp only [Except.ok.injEq, Prod.mk.injEq] at hins
        obtain ⟨_, hst⟩ := hins
        subst hst
        unfold RiskCacheConstraintHolds
        simp only [List.map_append, List.map_cons, List.map_nil]
        rw [List.nodup_append]
        refine ⟨h, List.nodup_singleton _, ?_⟩
        intro x hx hx2
        simp only [List.mem_singleton] at hx2
        obtain ⟨r, hrmem, hkey⟩ := List.mem_map.mp hx
        have hfalse := (List.any_eq_false.mp
          (Bool.not_eq_true _ ▸ hany : st.risk_cache.any
            (fun r => r.country == p.country && r.admin1 == a1) = false)) r hrmem
        apply hfalse
        have hk : r.country = p.country ∧ r.admin1 = a1 := by
          have := hkey.trans hx2
          exact ⟨congrArg Prod.fst this, congrArg Prod.snd this⟩
        simp [hk.1, hk.2]

/-- Claim C6, witness for the amended theorem on the two-row cache state. -/
theorem c6_pair_uniqueness_witness :
    RiskCacheConstraintHolds twoCacheState
  ∧ ((twoCacheState.risk_cache.filter
        (fun r => r.country == "Kenya" && r.admin1 == "Nairobi")).length ≤ 1
      ∧ ∀ row st2,
          insertRiskCache twoCacheState ⟨"Kenya", some "Kisumu", 4, 0⟩
            = .ok (row, st2) → RiskCacheConstraintHolds st2) :=
  ⟨by decide,
    c6_pair_uniqueness twoCacheState "Kenya" "Nairobi"
      ⟨"Kenya", some "Kisumu", 4, 0⟩ (by decide)⟩

/-- Claim C9, counterexample: a conflict row whose stored score is 7/2 makes
GET /conflictdata/Benin answer with a 400 bad request (pydantic's
ValidationError subclasses ValueError and lands in the except ValueError
branch), not the claimed 500; and on GET /conflictdata with page 1 of size 1
the fractional Benin row sits outside the requested page, so the response
succeeds even though a matching row of the table has a fractional score. -/
theorem c9_counterexample :
    get_country_conflicts fracState "Benin" = .badRequest "validation error"
  ∧ get_all_conflicts pagedState 1 1
      = .ok 1 1 2 [⟨1, "Albania", "Berat", none, 2, 3, 0, 0⟩]
  ∧ sevenHalves.den = 2
  ∧ (⟨2, "Benin", "Atacora", none, 3, sevenHalves, 0, 0⟩ : ConflictRow)
      ∈ pagedState.conflict_data := by
  refine ⟨by decide, by decide, by decide, by decide⟩

/-- Claim C9, amended: every successful response of the two read endpoints
carries integer-typed scores, and the failure is scoped to the rows the
response is built from: GET /conflictdata fails - with a 400, since pydantic
ValidationError is a ValueError - exactly when some row of the requested page
has a non-integral score, and GET /conflictdata/countries fails with the 400
when some row of the requested countries has a non-integral score; whenever
either endpoint answers 200, every serialized source row had an integral
score. -/
theorem c9_serialization (st : DBState) (page pp : Int) (param : String)
    (hp : ¬(page < 1 ∨ pp < 1 ∨ pp > 100)) :
    (get_all_conflicts st page pp = .badRequest "validation error"
        ↔ ∃ r ∈ pageItems st page pp, r.score.den ≠ 1)
  ∧ ((∃ r ∈ matchedRows st param, r.score.den ≠ 1) →
        get_country_conflicts st param = .badRequest "validation error")
  ∧ ((get_country_conflicts st param).isOk = true →
        ∀ r ∈ matchedRows st param, r.score.den = 1) := by
  have hcountry : (∃ r ∈ matchedRows st param, r.score.den ≠ 1) →
      get_country_conflicts st param = .badRequest "validation error" := by
    rintro ⟨r, hr, hd⟩
    have hne : (matchedRows st param).isEmpty = false := by
      cases hm : matchedRows st param with
      | nil => rw [hm] at hr; cases hr
      | cons x xs => rfl
    have hnone : serializeRows (matchedRows st param) = none :=
      (serializeRows_eq_none_iff _).mpr ⟨r, hr, hd⟩
    simp [get_country_conflicts, hne, hnone]
  refine ⟨?_, hcountry, ?_⟩
  · unfold get_all_conflicts
    rw [if_neg hp]
    cases hs : serializeRows (pageItems st page pp) with
    | none =>
        exact iff_of_true (by simp) ((serializeRows_eq_none_iff _).mp hs)
    | some rows =>
        constructor
        · intro hcontra; cases hcontra
        · rintro ⟨r, hr, hd⟩
          have : serializeRows (pageItems st page pp) = none :=
            (serializeRows_eq_none_iff _).mpr ⟨r, hr, hd⟩
          rw [this] at hs
          cases hs
  · intro hok r hr
    by_contra hd
    rw [hcountry ⟨r, hr, hd⟩] at hok
    cases hok

/-- Claim C9, witness for the amended theorem on the paged state. -/
theorem c9_serialization_witness :
    ¬((1 : Int) < 1 ∨ (20 : Int) < 1 ∨ (20 : Int) > 100)
  ∧ ((get_all_conflicts pagedState 1 20 = .badRequest "validation error"
        ↔ ∃ r ∈ pageItems pagedState 1 20, r.score.den ≠ 1)
      ∧ ((∃ r ∈ matchedRows pagedState "Albania", r.score.den ≠ 1) →
            get_country_conflicts pagedState "Albania"
              = .badRequest "validation error")
      ∧ ((get_country_conflicts pagedState "Albania").isOk = true →
            ∀ r ∈ matchedRows pagedState "Albania", r.score.den = 1)) :=
  ⟨by decide, c9_serialization pagedState 1 20 "Albania" (by decide)⟩

/-- Claim C10: the feedback route validates the body first, so any text
shorter than 20 or longer than 600 characters is answered with the 400 bad
request and the storage state is returned unchanged (no feedback row is
created); and when the admin1 region exists, the submission is accepted (201
created) exactly when the text length lies in [20, 600]. -/
theorem c10_feedback_length_gate (st : DBState) (a1 : String) (uid : Nat)
    (text : String) (now : Nat) :
    ((text.length < 20 ∨ 600 < text.length) →
        post_user_feedback st a1 uid text now
          = (.badRequest "Invalid request: text length out of bounds", st))
  ∧ (∀ cr, conflictByAdmin1 st a1 = some cr →
        ((post_user_feedback st a1 uid text now).1.isCreated = true
          ↔ (20 ≤ text.length ∧ text.length ≤ 600))) := by
  constructor
  · intro h
    unfold post_user_feedback
    rw [if_pos h]
  · intro cr hcr
    by_cases h : text.length < 20 ∨ 600 < text.length
    · unfold post_user_feedback
      rw [if_pos h]
      simp only [FeedbackOutcome.isCreated, Bool.false_eq_true, false_iff]
      omega
    · unfold post_user_feedback
      rw [if_neg h, hcr]
      have hlen : 20 ≤ text.length ∧ text.length ≤ 600 := by omega
      simp [FeedbackOutcome.isCreated, hlen]

/-- Claim C10, witness: a nine-character text is rejected with the state
unchanged, and a 37-character text on an existing region is accepted. -/
theorem c10_feedback_length_gate_witness :
    conflictByAdmin1 kenyaState "Nairobi" = some nairobiRow
  ∧ post_user_feedback kenyaState "Nairobi" 1 "too short" 3
      = (.badRequest "Invalid request: text length out of bounds", kenyaState)
  ∧ (post_user_feedback kenyaState "Nairobi" 1
        "This is a test feedback about Nairobi" 3).1.isCreated = true :=
  ⟨by decide,
    (c10_feedback_length_gate kenyaState "Nairobi" 1 "too short" 3).1 (by decide),
    ((c10_feedback_length_gate kenyaState "Nairobi" 1
        "This is a test feedback about Nairobi" 3).2 nairobiRow (by decide)).mpr
      (by decide)⟩

end Acled
